import Mathlib

/-!
Verification development for the Neuro-Struct filename/metadata resolution
engine.  The definitions below are a shallow embedding of the Python source:
the filename parser (src/filename_parser.py), the module-level wrappers
(src/utils.py), the lookup-table loaders (src/loaders.py) and the per-file
logic of the conversion drivers (src/converters/*.py).  Regular-expression
searches are embedded as explicit leftmost scans with greedy digit capture,
which is exact for the fixed patterns the source uses (no backtracking
ambiguity: a literal or digit class never overlaps the optional hyphen).
Matching is restricted to ASCII case folding and ASCII digits, which covers
every input class the program distinguishes.
-/

/-- Python str.lower restricted to ASCII case folding, the only case the
program distinguishes. -/
def strToLower (s : String) : String :=
  String.mk (s.toList.map Char.toLower)

/-- Python falsiness of an optional string: None and the empty string are
falsy.  Mirrors the checks "if not sub" and "[k for k in keys if not
info.get(k)]" in the source. -/
def pyFalsyOpt : Option String → Bool
  | none => true
  | some s => s == ""

/-- Python str(x) for an optional string: None prints as "None".  Mirrors how
an f-string renders a None field. -/
def pyStrOpt : Option String → String
  | none => "None"
  | some s => s

/-- Python str.zfill: pad with leading zero characters up to the width,
keeping the string unchanged when it is already at least that long. -/
def zfill (s : String) (width : Nat) : String :=
  if width ≤ s.length then s
  else String.mk (List.replicate (width - s.length) '0' ++ s.toList)

/-- Value of a string of decimal digits, as Python int() computes it on the
digit captures of the parser. -/
def digitsToNat (s : String) : Nat :=
  s.toList.foldl (fun a c => a * 10 + (c.toNat - 48)) 0

/-- Python int() on the strings this program feeds it, modelled on decimal
digit strings; any other input is a ValueError (here: none). -/
def parseNat (s : String) : Option Nat :=
  if !s.isEmpty && s.toList.all (fun c => c.isDigit) then some (digitsToNat s)
  else none

/-- The f-string format spec 02d: decimal, zero-padded to width two. -/
def pad2 (n : Nat) : String :=
  if n < 10 then "0" ++ Nat.repr n else Nat.repr n

/-- Lookup in a Python dict represented as its insertion history with the
most recent insertion first, so that find? realises last-write-wins. -/
def dictGet {β : Type} (d : List (String × β)) (k : String) : Option β :=
  (d.find? (fun p => p.1 == k)).map (fun p => p.2)

/-- Case-insensitive match of a literal (given in lower case) against the
head of the input, returning the remaining input. -/
def matchLitCI : List Char → List Char → Option (List Char)
  | [], s => some s
  | _ :: _, [] => none
  | l :: ls, c :: cs => if l == c.toLower then matchLitCI ls cs else none

/-- Greedy match of one or more ASCII digits, returning the capture and the
remaining input; embeds the regex atom of one-or-more digits. -/
def matchDigits1 (s : List Char) : Option (List Char × List Char) :=
  let p := s.span (fun c => c.isDigit)
  if p.1.isEmpty then none else some p

/-- An optional hyphen followed by one or more digits.  Deterministic
embedding of the regex fragment: a hyphen is never a digit, so consuming a
present hyphen is the only branch that can succeed. -/
def matchOptHyphenDigits : List Char → Option (List Char × List Char)
  | '-' :: rest => matchDigits1 rest
  | s => matchDigits1 s

/-- Leftmost search: try the pattern attempt at every position, earliest
success first.  Embeds re.search for the deterministic patterns used here. -/
def searchFrom {α : Type} (attempt : List Char → Option α) : List Char → Option α
  | [] => attempt []
  | c :: cs =>
    match attempt (c :: cs) with
    | some r => some r
    | none => searchFrom attempt cs

/-- True when the character is an ASCII letter, compared case-insensitively;
embeds the character class of letters under the IGNORECASE flag. -/
def isLetterCI (c : Char) : Bool :=
  decide (97 ≤ c.toLower.toNat ∧ c.toLower.toNat ≤ 122)

/-- Attempt for the subject pattern: literal sub, optional hyphen, digits. -/
def subAttempt (s : List Char) : Option String :=
  match matchLitCI ['s', 'u', 'b'] s with
  | none => none
  | some r =>
    match matchOptHyphenDigits r with
    | none => none
    | some (d, _) => some (String.mk d)

/-- Attempt for the session pattern with alternation of ses and session,
then optional hyphen and digits; the shorter branch is tried first exactly
as the regex alternation does. -/
def sesAttempt (s : List Char) : Option String :=
  match matchLitCI ['s', 'e', 's'] s with
  | none => none
  | some r =>
    match matchOptHyphenDigits r with
    | some (d, _) => some (String.mk d)
    | none =>
      match matchLitCI ['s', 'i', 'o', 'n'] r with
      | none => none
      | some r2 =>
        match matchOptHyphenDigits r2 with
        | none => none
        | some (d, _) => some (String.mk d)

/-- Attempt for the special session pattern: literal session hyphen, one
letter, underscore, digits; captures the digits. -/
def sessionLetterDigitsAttempt (s : List Char) : Option String :=
  match matchLitCI ['s', 'e', 's', 's', 'i', 'o', 'n', '-'] s with
  | some (c :: '_' :: r3) =>
    if isLetterCI c then
      match matchDigits1 r3 with
      | some (d, _) => some (String.mk d)
      | none => none
    else none
  | _ => none

/-- Attempt for the run pattern: literal run, optional hyphen, digits. -/
def runAttempt (s : List Char) : Option String :=
  match matchLitCI ['r', 'u', 'n'] s with
  | none => none
  | some r =>
    match matchOptHyphenDigits r with
    | none => none
    | some (d, _) => some (String.mk d)

/-- Attempt for the implicit run pattern: literal session hyphen followed by
one letter, which is captured. -/
def sessionCharAttempt (s : List Char) : Option Char :=
  match matchLitCI ['s', 'e', 's', 's', 'i', 'o', 'n', '-'] s with
  | some (c :: _) => if isLetterCI c then some c else none
  | _ => none

/-- FilenameParser.parse_subject: extract the subject digits after the sub
tag and pad with zfill to two characters. -/
def parse_subject (filename : String) : Option String :=
  match searchFrom subAttempt filename.toList with
  | some d => some (zfill d 2)
  | none => none

/-- FilenameParser.parse_session: the special letter-underscore-digits form
is tried first, then the standard ses or session tag; the captured digits
are padded with zfill to two characters. -/
def parse_session (filename : String) : Option String :=
  match searchFrom sessionLetterDigitsAttempt filename.toList with
  | some d => some (zfill d 2)
  | none =>
    match searchFrom sesAttempt filename.toList with
    | some d => some (zfill d 2)
    | none => none

/-- FilenameParser.parse_run: an explicit run tag is re-formatted through
int(); otherwise a letter after a session tag yields its alphabet index;
otherwise the run defaults to 01. -/
def parse_run (filename : String) : String :=
  match searchFrom runAttempt filename.toList with
  | some d => pad2 (digitsToNat d)
  | none =>
    match searchFrom sessionCharAttempt filename.toList with
    | some c => pad2 (c.toLower.toNat - 96)
    | none => "01"

/-- FilenameParser.parse_common_components: both the subject and the session
must be recognised, otherwise all three components are None. -/
def parse_common_components (filename : String) :
    Option String × Option String × Option String :=
  let sub := parse_subject filename
  let ses := parse_session filename
  if pyFalsyOpt sub || pyFalsyOpt ses then (none, none, none)
  else (sub, ses, some (parse_run filename))

/-- The dictionary returned by FilenameParser.parse_artwork_filename, with
one optional field per key of the Python dict. -/
structure ArtworkInfo where
  sub : Option String
  dyad : Option String
  ses : Option String
  task : Option String
  task_num : Option String
deriving DecidableEq

/-- The dictionary returned by FilenameParser.parse_coordinates_folder. -/
structure CoordInfo where
  sub : String
  ses : String
  dyad : Option String
deriving DecidableEq

/-- FilenameParser._get_dyad_for_sub: normalise the subject id through an
integer round-trip and look it up in the dyad table; a ValueError from the
conversion yields None. -/
def get_dyad_for_sub (dyadMap : List (String × String)) (subIdStr : String) :
    Option String :=
  match parseNat subIdStr with
  | none => none
  | some n => dictGet dyadMap (Nat.repr n)

/-- Attempt for the artwork dyad pattern: dyad, digits, letter d, digits,
underscore session, digits; all three digit groups captured. -/
def dyadAttempt (s : List Char) : Option (String × String × String) :=
  match matchLitCI ['d', 'y', 'a', 'd', '-'] s with
  | none => none
  | some r1 =>
    match matchDigits1 r1 with
    | none => none
    | some (g1, r2) =>
      match matchLitCI ['-', 'd'] r2 with
      | none => none
      | some r3 =>
        match matchDigits1 r3 with
        | none => none
        | some (g2, r4) =>
          match matchLitCI ['_', 's', 'e', 's', 's', 'i', 'o', 'n', '-'] r4 with
          | none => none
          | some r5 =>
            match matchDigits1 r5 with
            | none => none
            | some (g3, _) => some (String.mk g1, String.mk g2, String.mk g3)

/-- Attempt for the artwork solo pattern: sub, digits, solo marker, session
tag, digits; both digit groups captured. -/
def soloAttempt (s : List Char) : Option (String × String) :=
  match matchLitCI ['s', 'u', 'b', '-'] s with
  | none => none
  | some r1 =>
    match matchDigits1 r1 with
    | none => none
    | some (g1, r2) =>
      match matchLitCI ['-', 's', 'o', 'l', 'o', '_', 's', 'e', 's', 's', 'i', 'o', 'n', '-'] r2 with
      | none => none
      | some r3 =>
        match matchDigits1 r3 with
        | none => none
        | some (g2, _) => some (String.mk g1, String.mk g2)

/-- FilenameParser.parse_artwork_filename: the dyad pattern is tried first,
then the solo pattern; the solo branch resolves the dyad id through the
dyad table. -/
def parse_artwork_filename (dyadMap : List (String × String))
    (filename : String) : Option ArtworkInfo :=
  match searchFrom dyadAttempt filename.toList with
  | some (g1, g2, g3) =>
    some { sub := none, dyad := some g1, ses := some (zfill g3 2),
           task := some "together", task_num := some g2 }
  | none =>
    match searchFrom soloAttempt filename.toList with
    | some (g1, g2) =>
      some { sub := some (zfill g1 2), dyad := get_dyad_for_sub dyadMap g1,
             ses := some (zfill g2 2), task := some "solo", task_num := none }
    | none => none

/-- FilenameParser.parse_coordinates_folder: the pattern is anchored at both
ends of the folder name, so the match is a direct decomposition. -/
def parse_coordinates_folder (dyadMap : List (String × String))
    (folderName : String) : Option CoordInfo :=
  match matchLitCI ['s', 'u', 'b', '-'] folderName.toList with
  | none => none
  | some r1 =>
    match matchDigits1 r1 with
    | none => none
    | some (g1, r2) =>
      match matchLitCI ['_', 's', 'e', 's', 's', 'i', 'o', 'n', '-'] r2 with
      | none => none
      | some r3 =>
        match matchDigits1 r3 with
        | none => none
        | some (g2, r4) =>
          if r4.isEmpty then
            some { sub := zfill (String.mk g1) 2, ses := zfill (String.mk g2) 2,
                   dyad := get_dyad_for_sub dyadMap (String.mk g1) }
          else none

/-- The Python exceptions this embedding distinguishes. -/
inductive PyErr where
  | attributeError (name : String)
  | keyError (name : String)
  | valueError
deriving DecidableEq

instance {ε α : Type} [DecidableEq ε] [DecidableEq α] : DecidableEq (Except ε α)
  | .error a, .error b =>
    if h : a = b then isTrue (by rw [h]) else isFalse (by simp [h])
  | .error _, .ok _ => isFalse (by simp)
  | .ok _, .error _ => isFalse (by simp)
  | .ok a, .ok b =>
    if h : a = b then isTrue (by rw [h]) else isFalse (by simp [h])

/-- The possible return values of the methods of FilenameParser, one
constructor per return type. -/
inductive ParserResult where
  | optStr : Option String → ParserResult
  | str : String → ParserResult
  | triple : Option String × Option String × Option String → ParserResult
  | artwork : Option ArtworkInfo → ParserResult
  | coord : Option CoordInfo → ParserResult
deriving DecidableEq

/-- Attribute dispatch on a FilenameParser instance holding the given dyad
table: resolving a method name and calling it on one string argument.  The
table lists exactly the methods defined by the class in
src/filename_parser.py; any other name raises AttributeError, as Python
attribute resolution does. -/
def parserCall (dyadMap : List (String × String)) (method : String)
    (arg : String) : Except PyErr ParserResult :=
  if method == "parse_subject" then .ok (.optStr (parse_subject arg))
  else if method == "parse_session" then .ok (.optStr (parse_session arg))
  else if method == "parse_run" then .ok (.str (parse_run arg))
  else if method == "parse_common_components" then
    .ok (.triple (parse_common_components arg))
  else if method == "parse_artwork_filename" then
    .ok (.artwork (parse_artwork_filename dyadMap arg))
  else if method == "parse_coordinates_folder" then
    .ok (.coord (parse_coordinates_folder dyadMap arg))
  else if method == "_get_dyad_for_sub" then
    .ok (.optStr (get_dyad_for_sub dyadMap arg))
  else .error (.attributeError method)

/-- utils.parse_filename: delegates to the shared parser instance through
the attribute named parse_all. -/
def utils_parse_filename (dyadMap : List (String × String)) (filename : String) :
    Except PyErr ParserResult :=
  parserCall dyadMap "parse_all" filename

/-- utils.parse_artwork_filename: delegates to the shared parser instance
through the attribute named parse_artwork_string. -/
def utils_parse_artwork_filename (dyadMap : List (String × String))
    (filename : String) : Except PyErr ParserResult :=
  parserCall dyadMap "parse_artwork_string" filename

/-- The top-level names defined in the utils module (its imports and its
function definitions), in source order. -/
def utilsModuleAttrs : List String :=
  ["json", "glob", "shutil", "Path", "Optional", "Dict", "Any",
   "make_dataset_description", "FilenameParser", "cfg", "_parser",
   "parse_filename", "parse_artwork_filename", "patch_nirs_coords",
   "generate_description", "run_inventory", "perform_copy"]

/-- Module attribute resolution on utils: the name itself when it is
defined, AttributeError otherwise. -/
def utilsGetattr (name : String) : Except PyErr String :=
  if utilsModuleAttrs.contains name then .ok name
  else .error (.attributeError name)

/-- One row of a CSV read with all columns as text: the cells keyed by
column name. -/
abbrev CsvRow : Type := List (String × String)

/-- Cell access row[col] on a pandas row: KeyError when the column is
absent. -/
def rowGet (row : CsvRow) (col : String) : Except PyErr String :=
  match row.find? (fun p => p.1 == col) with
  | some p => .ok p.2
  | none => .error (.keyError col)

/-- Python int() as an exception-raising conversion. -/
def parseNatE (s : String) : Except PyErr Nat :=
  match parseNat s with
  | some n => .ok n
  | none => .error .valueError

/-- Traverse a list with a fallible step, stopping at the first error;
embeds a pandas loop or column operation inside the try block of a
loader. -/
def mapE {α β : Type} (f : α → Except PyErr β) : List α → Except PyErr (List β)
  | [] => .ok []
  | x :: xs =>
    match f x with
    | .error e => .error e
    | .ok y =>
      match mapE f xs with
      | .error e => .error e
      | .ok ys => .ok (y :: ys)

/-- A value of the demographics lookup: the age cell and the MNE sex code. -/
structure DemoEntry where
  age : String
  sex : Nat
deriving DecidableEq

/-- The gender-string table of load_demographics. -/
def sex_map : List (String × Nat) :=
  [("male", 1), ("female", 2), ("m", 1), ("f", 2)]

/-- sex_map.get(str(row[gender]).lower(), 0). -/
def sexCodeOf (gender : String) : Nat :=
  match sex_map.find? (fun p => p.1 == strToLower gender) with
  | some p => p.2
  | none => 0

/-- The body of the row loop of load_demographics: build the composite key
from the integer-normalised id and the zero-padded visit, and the entry
from the age cell and the sex code. -/
def demographicsRowEntry (row : CsvRow) : Except PyErr (String × DemoEntry) := do
  let pidRaw ← rowGet row "p_id"
  let pid ← parseNatE pidRaw
  let visitRaw ← rowGet row "visit"
  let visit ← parseNatE visitRaw
  let gender ← rowGet row "gender"
  let age ← rowGet row "age"
  .ok (Nat.repr pid ++ "_" ++ pad2 visit, { age := age, sex := sexCodeOf gender })

/-- loaders.load_demographics: an absent file gives an empty lookup; the row
loop runs inside a try block, so the first structural error (missing column,
malformed id or visit) discards everything and gives an empty lookup.  The
successive dict insertions are kept most-recent-first for dictGet. -/
def load_demographics : Option (List CsvRow) → List (String × DemoEntry)
  | none => []
  | some rows =>
    match mapE demographicsRowEntry rows with
    | .error _ => []
    | .ok entries => entries.reverse

/-- The pID1 half of the melt of load_dyad_mapping: the pair of the pID1
cell and the dyadID cell; KeyError when a column is absent. -/
def dyadLongEntry1 (row : CsvRow) : Except PyErr (String × String) := do
  let d ← rowGet row "dyadID"
  let p ← rowGet row "pID1"
  .ok (p, d)

/-- The pID2 half of the melt of load_dyad_mapping. -/
def dyadLongEntry2 (row : CsvRow) : Except PyErr (String × String) := do
  let d ← rowGet row "dyadID"
  let p ← rowGet row "pID2"
  .ok (p, d)

/-- The id normalisation applied to the melted table: the subject id is
round-tripped through int() to strip leading zeros. -/
def dyadNormalizeEntry (e : String × String) : Except PyErr (String × String) :=
  match parseNatE e.1 with
  | .error err => .error err
  | .ok n => .ok (Nat.repr n, e.2)

/-- loaders.load_dyad_mapping: an absent file gives an empty mapping; the
wide table is melted column-major (all pID1 pairs, then all pID2 pairs),
ids are normalised, and the pairs are entered into a dict in that order so
a duplicate subject id overwrites the earlier entry.  Everything runs in a
try block, so any structural error gives an empty mapping. -/
def load_dyad_mapping : Option (List CsvRow) → List (String × String)
  | none => []
  | some rows =>
    match mapE dyadLongEntry1 rows with
    | .error _ => []
    | .ok long1 =>
      match mapE dyadLongEntry2 rows with
      | .error _ => []
      | .ok long2 =>
        match mapE dyadNormalizeEntry (long1 ++ long2) with
        | .error _ => []
        | .ok entries => entries.reverse

/-- info.get(k) on the artwork dict, whose keys are fixed by the parser. -/
def artworkGet (info : ArtworkInfo) (k : String) : Option String :=
  if k == "sub" then info.sub
  else if k == "dyad" then info.dyad
  else if k == "ses" then info.ses
  else if k == "task" then info.task
  else if k == "task_num" then info.task_num
  else none

/-- ArtworksConverter._validate_metadata: the required keys whose value is
missing or falsy; a nonempty result raises ValueError in the source. -/
def artworkValidateMissing (info : ArtworkInfo) (required : List String) :
    List String :=
  required.filter (fun k => pyFalsyOpt (artworkGet info k))

/-- pathlib suffix of a file name: the part from the last dot on, empty when
the dot is absent, leading or trailing. -/
def pySuffix (name : String) : String :=
  let cs := name.toList
  let revExt := cs.reverse.takeWhile (fun c => c != '.')
  let i := cs.length - 1 - revExt.length
  if cs.contains '.' && decide (0 < i) && decide (i < cs.length - 1) then
    String.mk ('.' :: revExt.reverse)
  else ""

/-- ArtworksConverter._prepare_together: validate the dyad, session and task
number, then build the destination folder and file name. -/
def prepare_together (info : ArtworkInfo) (fileSuffix : String) :
    Except PyErr (String × String) :=
  if (artworkValidateMissing info ["dyad", "ses", "task_num"]).isEmpty then
    .ok ("together",
      "ses-" ++ pyStrOpt info.ses ++ "_acq-dyad" ++ pyStrOpt info.dyad ++
      "_task-codrawing" ++ pyStrOpt info.task_num ++ "_artwork" ++
      strToLower fileSuffix)
  else .error .valueError

/-- ArtworksConverter._prepare_solo: validate the dyad, session and subject,
then build the destination folder and file name. -/
def prepare_solo (info : ArtworkInfo) (fileSuffix : String) :
    Except PyErr (String × String) :=
  if (artworkValidateMissing info ["dyad", "ses", "sub"]).isEmpty then
    .ok ("alone",
      "sub-" ++ pyStrOpt info.sub ++ "_ses-" ++ pyStrOpt info.ses ++
      "_acq-dyad" ++ pyStrOpt info.dyad ++ "_task-drawingalone_artwork" ++
      strToLower fileSuffix)
  else .error .valueError

/-- ArtworksConverter._process_single_file with the parse already routed to
the parser method (see the C1 theorem for the broken utils indirection) and
the byte copy abstracted by its success flag: a pattern mismatch is a quiet
skip, an unknown task kind or a validation error is a failure, otherwise
the destination pair is produced. -/
def artworksProcessSingleFile (dyadMap : List (String × String)) (copyOk : Bool)
    (fileName : String) : Bool × Option (String × String) :=
  match parse_artwork_filename dyadMap fileName with
  | none => (false, none)
  | some info =>
    let r :=
      if info.task == some "together" then prepare_together info (pySuffix fileName)
      else if info.task == some "solo" then prepare_solo info (pySuffix fileName)
      else Except.error PyErr.valueError
    match r with
    | .error _ => (false, none)
    | .ok dest => if copyOk then (true, some dest) else (false, none)

/-- info.get(k) on the coordinates dict, whose keys are fixed by the
parser. -/
def coordGet (info : CoordInfo) (k : String) : Option String :=
  if k == "sub" then some info.sub
  else if k == "ses" then some info.ses
  else if k == "dyad" then info.dyad
  else none

/-- BaseConverter._validate_metadata for the coordinates keys. -/
def coordValidateMissing (info : CoordInfo) : List String :=
  ["sub", "ses", "dyad"].filter (fun k => pyFalsyOpt (coordGet info k))

/-- The source-name to target-suffix table of
CoordinatesConverter._process_single_file, in its insertion order. -/
def coordFilesMap (folderName : String) : List (String × String) :=
  [(folderName ++ ".csv", "optodeCoordinates.csv"),
   (folderName ++ "_distances.csv", "channelLengths.csv"),
   (folderName ++ "_optode_dist.csv", "distancesToRoi.csv")]

/-- CoordinatesConverter._process_single_file with the parse routed to the
parser method and the filesystem abstracted by an existence test and a
per-file copy success flag: parse and validate the folder name, then walk
the three known source files, copying each one that exists; the outcome is
the success flag of the folder and the destination names actually copied. -/
def coordinatesProcessSingleFile (dyadMap : List (String × String))
    (existsF copyOk : String → Bool) (folderName : String) :
    Bool × List String :=
  match parse_coordinates_folder dyadMap folderName with
  | none => (false, [])
  | some info =>
    if (coordValidateMissing info).isEmpty then
      let prefixStr := "sub-" ++ info.sub ++ "_ses-" ++ info.ses ++
        "_acq-dyad" ++ pyStrOpt info.dyad ++ "_"
      (coordFilesMap folderName).foldl
        (fun acc sf =>
          if existsF sf.1 then
            (if copyOk sf.1 then (true, acc.2 ++ [prefixStr ++ sf.2]) else acc)
          else acc)
        (false, [])
    else (false, [])

/-- Modelled from the spec: the motion-capture parse function the converter
calls (utils.parse_mocap_file) is defined nowhere in the repository; per the
spec its result distinguishes a dyad id, a session and a task-number token,
so the parse outcome is taken as an explicit optional record with exactly
those fields. -/
structure MocapInfo where
  dyad : Option String
  ses : Option String
  task_num : Option String
deriving DecidableEq

/-- info.get(k) on the motion-capture dict. -/
def mocapGet (info : MocapInfo) (k : String) : Option String :=
  if k == "dyad" then info.dyad
  else if k == "ses" then info.ses
  else if k == "task_num" then info.task_num
  else none

/-- BaseConverter._validate_metadata for the motion-capture keys. -/
def mocapValidateMissing (info : MocapInfo) : List String :=
  ["dyad", "ses", "task_num"].filter (fun k => pyFalsyOpt (mocapGet info k))

/-- The fixed task-number table of MoCapConverter. -/
def task_map : List (String × String) :=
  [("1", "drawingalone"), ("2", "codrawing1"), ("3", "codrawing2"),
   ("4", "collaborativetask")]

/-- MoCapConverter._process_single_file on an already-parsed result (the
parse function is absent from the repository, see MocapInfo), with the byte
copy abstracted by its success flag: validate the three keys, map the task
number through the fixed table, fail on an unknown number, otherwise build
the destination name. -/
def mocapProcessSingleFile (parsed : Option MocapInfo) (copyOk : Bool) :
    Bool × Option String :=
  match parsed with
  | none => (false, none)
  | some info =>
    if (mocapValidateMissing info).isEmpty then
      match dictGet task_map (pyStrOpt info.task_num) with
      | none => (false, none)
      | some taskName =>
        let dyad := pyStrOpt info.dyad
        let ses := pyStrOpt info.ses
        let newName := "sub-dyad" ++ dyad ++ "_ses-" ++ ses ++ "_acq-dyad" ++
          dyad ++ "_task-" ++ taskName ++ "_mocap.csv"
        if copyOk then (true, some newName) else (false, none)
    else (false, none)

/-- The success and failure counters of BaseConverter.run: each per-file
outcome increments exactly one of the two counters. -/
def runCounts (outcomes : List Bool) : Nat × Nat :=
  outcomes.foldl (fun acc b => if b then (acc.1 + 1, acc.2) else (acc.1, acc.2 + 1))
    (0, 0)

theorem zfill_two_length (s : String) : 2 ≤ (zfill s 2).length := by
  unfold zfill
  by_cases h : 2 ≤ s.length
  · simp [h]
  · simp only [h, if_false]
    have h1 : (String.mk (List.replicate (2 - s.length) '0' ++ s.toList)).length
        = (List.replicate (2 - s.length) '0' ++ s.toList).length := rfl
    rw [h1, List.length_append, List.length_replicate]
    have hlen : s.toList.length = s.length := rfl
    omega

theorem zfill_two_ne_empty (s : String) : (zfill s 2) ≠ "" := by
  intro h
  have h2 := zfill_two_length s
  rw [h] at h2
  simp [String.length] at h2

theorem parse_subject_eq_zfill {s d : String} (h : parse_subject s = some d) :
    ∃ u, searchFrom subAttempt s.toList = some u ∧ d = zfill u 2 := by
  unfold parse_subject at h
  cases hs : searchFrom subAttempt s.toList with
  | none => rw [hs] at h; exact absurd h (by simp)
  | some u =>
    rw [hs] at h
    exact ⟨u, rfl, by injection h with h2; exact h2.symm⟩

theorem parse_session_eq_zfill {s d : String} (h : parse_session s = some d) :
    ∃ u, d = zfill u 2 := by
  unfold parse_session at h
  cases h1 : searchFrom sessionLetterDigitsAttempt s.toList with
  | some u =>
    rw [h1] at h
    exact ⟨u, by injection h with h2; exact h2.symm⟩
  | none =>
    rw [h1] at h
    cases h2 : searchFrom sesAttempt s.toList with
    | none => rw [h2] at h; exact absurd h (by simp)
    | some u =>
      rw [h2] at h
      exact ⟨u, by injection h with h3; exact h3.symm⟩

theorem parse_subject_ne_empty {s d : String} (h : parse_subject s = some d) :
    d ≠ "" := by
  obtain ⟨u, _, hd⟩ := parse_subject_eq_zfill h
  rw [hd]; exact zfill_two_ne_empty u

theorem parse_session_ne_empty {s d : String} (h : parse_session s = some d) :
    d ≠ "" := by
  obtain ⟨u, hd⟩ := parse_session_eq_zfill h
  rw [hd]; exact zfill_two_ne_empty u

theorem mapE_ok_mem {α β : Type} {f : α → Except PyErr β} :
    ∀ {xs : List α} {ys : List β}, mapE f xs = .ok ys →
      ∀ y ∈ ys, ∃ x ∈ xs, f x = .ok y := by
  intro xs
  induction xs with
  | nil =>
    intro ys h y hy
    unfold mapE at h
    injection h with h1
    rw [← h1] at hy
    exact absurd hy (by simp)
  | cons x xt ih =>
    intro ys h y hy
    unfold mapE at h
    cases hf : f x with
    | error e => rw [hf] at h; exact absurd h (by simp)
    | ok y1 =>
      rw [hf] at h
      cases hm : mapE f xt with
      | error e => rw [hm] at h; exact absurd h (by simp)
      | ok ys1 =>
        rw [hm] at h
        injection h with h1
        rw [← h1] at hy
        rcases List.mem_cons.mp hy with h2 | h2
        · exact ⟨x, List.mem_cons_self x xt, by rw [h2]; exact hf⟩
        · obtain ⟨x2, hx2, hfx2⟩ := ih hm y h2
          exact ⟨x2, List.mem_cons_of_mem x hx2, hfx2⟩

theorem mapE_ok_of_mem {α β : Type} {f : α → Except PyErr β} :
    ∀ {xs : List α} {ys : List β}, mapE f xs = .ok ys →
      ∀ x ∈ xs, ∀ y, f x = .ok y → y ∈ ys := by
  intro xs
  induction xs with
  | nil =>
    intro ys _ x hx
    exact absurd hx (by simp)
  | cons x1 xt ih =>
    intro ys h x hx y hy
    unfold mapE at h
    cases hf : f x1 with
    | error e => rw [hf] at h; exact absurd h (by simp)
    | ok y1 =>
      rw [hf] at h
      cases hm : mapE f xt with
      | error e => rw [hm] at h; exact absurd h (by simp)
      | ok ys1 =>
        rw [hm] at h
        injection h with h1
        rw [← h1]
        rcases List.mem_cons.mp hx with h2 | h2
        · rw [h2] at hy
          rw [hy] at hf
          injection hf with h3
          rw [h3]
          exact List.mem_cons_self y1 ys1
        · exact List.mem_cons_of_mem y1 (ih hm x h2 y hy)

theorem mapE_error_of_mem {α β : Type} {f : α → Except PyErr β} :
    ∀ {xs : List α} {x : α} {e : PyErr}, x ∈ xs → f x = .error e →
      ∃ e2, mapE f xs = .error e2 := by
  intro xs
  induction xs with
  | nil => intro x e hx; exact absurd hx (by simp)
  | cons x1 xt ih =>
    intro x e hx hfe
    rcases List.mem_cons.mp hx with h2 | h2
    · refine ⟨e, ?_⟩
      unfold mapE
      rw [← h2, hfe]
    · cases hf : f x1 with
      | error e1 => exact ⟨e1, by unfold mapE; rw [hf]⟩
      | ok y1 =>
        obtain ⟨e2, hm⟩ := ih h2 hfe
        refine ⟨e2, ?_⟩
        unfold mapE
        rw [hf, hm]

theorem runCounts_foldl (l : List Bool) (a b : Nat) :
    l.foldl (fun acc c => if c then (acc.1 + 1, acc.2) else (acc.1, acc.2 + 1)) (a, b)
      = (a + l.count true, b + l.count false) := by
  induction l generalizing a b with
  | nil => simp
  | cons c t ih =>
    cases c with
    | true => simp [List.count_cons, ih]; omega
    | false => simp [List.count_cons, ih]; omega

theorem runCounts_eq (l : List Bool) : runCounts l = (l.count true, l.count false) := by
  unfold runCounts
  rw [runCounts_foldl]
  simp

/-- C1: for every input string, the module-level parsing wrappers and the
converters' utils lookups fail by attribute resolution: utils.parse_filename
calls parse_all and utils.parse_artwork_filename calls parse_artwork_string,
neither defined on FilenameParser, and the coordinates and motion-capture
converters look up parse_coordinates_folder and parse_mocap_file, which the
utils module does not define; all four raise AttributeError instead of
returning a parsed identifier or a skip. -/
theorem c1_driver_parse_steps_raise_attribute_error :
    ∀ (dyadMap : List (String × String)) (s : String),
      utils_parse_filename dyadMap s =
        .error (.attributeError "parse_all") ∧
      utils_parse_artwork_filename dyadMap s =
        .error (.attributeError "parse_artwork_string") ∧
      utilsGetattr "parse_coordinates_folder" =
        .error (.attributeError "parse_coordinates_folder") ∧
      utilsGetattr "parse_mocap_file" =
        .error (.attributeError "parse_mocap_file") := by
  intro dyadMap s
  exact ⟨rfl, rfl, rfl, rfl⟩

/-- C2 counterexample: the subject and session captures go through zfill,
which pads but never strips, so session-003 parses to 003 and sub-007 to
007, not to the 03 and 07 the claim states. -/
theorem c2_leading_zeros_counterexample :
    parse_session "session-003" = some "003" ∧
    parse_subject "sub-007" = some "007" ∧
    ("003" : String) ≠ "03" ∧ ("007" : String) ≠ "07" := by
  exact ⟨by decide, by decide, by decide, by decide⟩

/-- C2 amended: the subject, session and artwork-session captures are padded
with zfill to a minimum of two characters, preserving any extra leading
zeros, so the result always has length at least two; only the run capture is
re-formatted through int() and so strips leading zeros. -/
theorem c2_amended_zfill_padding :
    parse_subject "sub-007" = some "007" ∧
    parse_session "session-003" = some "003" ∧
    parse_subject "sub-7" = some "07" ∧
    parse_session "ses-3" = some "03" ∧
    (parse_artwork_filename [] "dyad-1001-D1_session-003").map ArtworkInfo.ses
      = some (some "003") ∧
    parse_run "run-003" = "03" ∧
    (∀ s d, parse_subject s = some d → 2 ≤ d.length) ∧
    (∀ s d, parse_session s = some d → 2 ≤ d.length) := by
  refine ⟨by decide, by decide, by decide, by decide, by decide, by decide, ?_, ?_⟩
  · intro s d h
    obtain ⟨u, _, hd⟩ := parse_subject_eq_zfill h
    rw [hd]; exact zfill_two_length u
  · intro s d h
    obtain ⟨u, hd⟩ := parse_session_eq_zfill h
    rw [hd]; exact zfill_two_length u

theorem c2_amended_zfill_padding_witness :
    2 ≤ ("007" : String).length ∧ 2 ≤ ("003" : String).length := by
  constructor
  · exact c2_amended_zfill_padding.2.2.2.2.2.2.1 "sub-007" "007" (by decide)
  · exact c2_amended_zfill_padding.2.2.2.2.2.2.2 "session-003" "003" (by decide)

/-- C3 counterexample: on a filename carrying both the letter pattern and an
explicit run tag the code honours the run tag, not the letter, so the claim
that the letter derivation takes precedence fails. -/
theorem c3_run_precedence_counterexample :
    parse_run "session-a_1_run-05" = "05" ∧ ("05" : String) ≠ "01" := by
  exact ⟨by decide, by decide⟩

/-- C3 amended: an explicit run tag takes precedence and is re-formatted
through int(); only when no run tag is present does a letter following a
session tag derive the run from its alphabet index, case-insensitively and
with no trailing digits required; otherwise the run defaults to 01. -/
theorem c3_amended_run_rules :
    parse_run "session-a_1_run-05" = "05" ∧
    parse_run "sub-1_session-a_1" = "01" ∧
    parse_run "sub-1_session-B_3" = "02" ∧
    parse_run "session-b" = "02" ∧
    parse_run "sub-01_ses-02" = "01" := by
  exact ⟨by decide, by decide, by decide, by decide, by decide⟩

/-- C4 counterexample: the solo artwork sub-102-solo_session-1.jpg with the
dyad table mapping 102 to 2002 produces the destination name with subject
102 kept in full, because zfill pads to two characters and never shortens,
so the destination the claim states is not produced. -/
theorem c4_solo_destination_counterexample :
    artworksProcessSingleFile [("102", "2002")] true "sub-102-solo_session-1.jpg"
      = (true, some ("alone",
          "sub-102_ses-01_acq-dyad2002_task-drawingalone_artwork.jpg")) ∧
    ("sub-102_ses-01_acq-dyad2002_task-drawingalone_artwork.jpg" : String)
      ≠ "sub-02_ses-01_acq-dyad2002_task-drawingalone_artwork.jpg" := by
  exact ⟨by decide, by decide⟩

/-- C4 amended: the same parse and solo destination template produce exactly
sub-102_ses-01_acq-dyad2002_task-drawingalone_artwork.jpg: the subject
capture 102 is already three characters long, so zfill leaves it unchanged,
the session is padded, and the dyad is looked up through the table. -/
theorem c4_amended_solo_destination :
    artworksProcessSingleFile [("102", "2002")] true "sub-102-solo_session-1.jpg"
      = (true, some ("alone",
          "sub-102_ses-01_acq-dyad2002_task-drawingalone_artwork.jpg")) := by
  decide

/-- C5: standard-mode parsing is all-or-nothing: if either the subject tag
or the session tag is absent, all three components are None; when both are
present, all three components are returned. -/
theorem c5_all_or_nothing (s : String) :
    ((parse_subject s = none ∨ parse_session s = none) →
      parse_common_components s = (none, none, none)) ∧
    (∀ a b, parse_subject s = some a → parse_session s = some b →
      parse_common_components s = (some a, some b, some (parse_run s))) := by
  constructor
  · intro h
    unfold parse_common_components
    rcases h with h | h <;> simp [h, pyFalsyOpt]
  · intro a b ha hb
    unfold parse_common_components
    rw [ha, hb]
    have hfa : pyFalsyOpt (some a) = false := by
      simp only [pyFalsyOpt, beq_eq_false_iff_ne, ne_eq]
      exact parse_subject_ne_empty ha
    have hfb : pyFalsyOpt (some b) = false := by
      simp only [pyFalsyOpt, beq_eq_false_iff_ne, ne_eq]
      exact parse_session_ne_empty hb
    simp [hfa, hfb]

theorem c5_all_or_nothing_witness :
    parse_common_components "sub-1_ses-2" = (some "01", some "02", some "01") ∧
    parse_common_components "hello" = (none, none, none) := by
  constructor
  · have h := (c5_all_or_nothing "sub-1_ses-2").2 "01" "02" (by decide) (by decide)
    have hr : parse_run "sub-1_ses-2" = "01" := by decide
    rw [hr] at h
    exact h
  · exact (c5_all_or_nothing "hello").1 (Or.inl (by decide))

/-- C6: loading the dyad row with dyadID 1001 and participants 01 and 02
yields a mapping where both normalised keys 1 and 2 map to 1001; a duplicate
subject id in a later melt position overwrites the earlier entry; and every
key of a loaded mapping is the integer round-trip of a subject id, hence
free of leading zeros. -/
theorem c6_dyad_mapping_roundtrip :
    dictGet (load_dyad_mapping
      (some [[("dyadID", "1001"), ("pID1", "01"), ("pID2", "02")]])) "1"
      = some "1001" ∧
    dictGet (load_dyad_mapping
      (some [[("dyadID", "1001"), ("pID1", "01"), ("pID2", "02")]])) "2"
      = some "1001" ∧
    dictGet (load_dyad_mapping
      (some [[("dyadID", "1001"), ("pID1", "01"), ("pID2", "02")],
             [("dyadID", "1005"), ("pID1", "1"), ("pID2", "03")]])) "1"
      = some "1005" ∧
    (∀ rows k v, dictGet (load_dyad_mapping (some rows)) k = some v →
      ∃ n : Nat, k = Nat.repr n) := by
  refine ⟨by decide, by decide, by decide, ?_⟩
  intro rows k v h
  simp only [load_dyad_mapping] at h
  cases h1 : mapE dyadLongEntry1 rows with
  | error e => rw [h1] at h; simp [dictGet] at h
  | ok long1 =>
    rw [h1] at h
    simp only [] at h
    cases h2 : mapE dyadLongEntry2 rows with
    | error e => rw [h2] at h; simp [dictGet] at h
    | ok long2 =>
      rw [h2] at h
      simp only [] at h
      cases h3 : mapE dyadNormalizeEntry (long1 ++ long2) with
      | error e => rw [h3] at h; simp [dictGet] at h
      | ok entries =>
        rw [h3] at h
        simp only [] at h
        unfold dictGet at h
        cases hf : entries.reverse.find? (fun p => p.1 == k) with
        | none => rw [hf] at h; simp at h
        | some p =>
          have hpk : (p.1 == k) = true := by
            have h0 := List.find?_some hf
            simpa using h0
          have hmem : p ∈ entries.reverse := List.mem_of_find?_eq_some hf
          rw [List.mem_reverse] at hmem
          obtain ⟨x, _, hfx⟩ := mapE_ok_mem h3 p hmem
          cases hn : parseNat x.1 with
          | none =>
            simp only [dyadNormalizeEntry, parseNatE, hn] at hfx
            exact absurd hfx (by simp)
          | some n =>
            refine ⟨n, ?_⟩
            simp only [dyadNormalizeEntry, parseNatE, hn] at hfx
            injection hfx with hfx2
            have hk : p.1 = k := eq_of_beq hpk
            rw [← hfx2] at hk
            simp at hk
            exact hk.symm

theorem c6_dyad_mapping_roundtrip_witness :
    ∃ n : Nat, ("1" : String) = Nat.repr n := by
  exact c6_dyad_mapping_roundtrip.2.2.2
    [[("dyadID", "1001"), ("pID1", "01"), ("pID2", "02")]] "1" "1001" (by decide)

/-- C7: the demographics loader keys a row by the integer-normalised id and
the zero-padded visit, so the example row is retrievable under 7_01 with age
34 and sex code 2; and the sex mapping is exactly the case-insensitive table
sending male and m to 1, female and f to 2, anything else to 0. -/
theorem c7_demographics_lookup :
    dictGet (load_demographics
      (some [[("p_id", "07"), ("visit", "1"), ("gender", "F"), ("age", "34")]]))
      "7_01" = some { age := "34", sex := 2 } ∧
    (∀ g, sexCodeOf g =
      if "male" == strToLower g then 1
      else if "female" == strToLower g then 2
      else if "m" == strToLower g then 1
      else if "f" == strToLower g then 2
      else 0) := by
  refine ⟨by decide, ?_⟩
  intro g
  unfold sexCodeOf sex_map
  simp only [List.find?]
  cases h1 : ("male" == strToLower g) <;>
  cases h2 : ("female" == strToLower g) <;>
  cases h3 : ("m" == strToLower g) <;>
  cases h4 : ("f" == strToLower g) <;>
  simp [h1, h2, h3, h4]

/-- C8: neither lookup-table loader ever aborts a run: a missing file yields
an empty mapping, and any structural error inside the row processing (a
missing expected column, seen as a KeyError from a row or melt access, or a
malformed id, seen as a ValueError from int()) makes the loader discard its
work and return an empty mapping. -/
theorem c8_loaders_degrade_to_empty :
    load_demographics none = [] ∧
    load_dyad_mapping none = [] ∧
    (∀ rows row e, row ∈ rows → demographicsRowEntry row = .error e →
      load_demographics (some rows) = []) ∧
    (∀ rows row e, row ∈ rows → dyadLongEntry1 row = .error e →
      load_dyad_mapping (some rows) = []) ∧
    (∀ rows row e, row ∈ rows → dyadLongEntry2 row = .error e →
      load_dyad_mapping (some rows) = []) ∧
    (∀ rows row p, row ∈ rows → dyadLongEntry1 row = .ok p →
      parseNat p.1 = none → load_dyad_mapping (some rows) = []) ∧
    (∀ rows row p, row ∈ rows → dyadLongEntry2 row = .ok p →
      parseNat p.1 = none → load_dyad_mapping (some rows) = []) := by
  refine ⟨rfl, rfl, ?_, ?_, ?_, ?_, ?_⟩
  · intro rows row e hr he
    obtain ⟨e2, hm⟩ := mapE_error_of_mem hr he
    simp only [load_demographics, hm]
  · intro rows row e hr he
    obtain ⟨e2, hm⟩ := mapE_error_of_mem hr he
    simp only [load_dyad_mapping, hm]
  · intro rows row e hr he
    obtain ⟨e2, hm⟩ := mapE_error_of_mem hr he
    simp only [load_dyad_mapping]
    cases h1 : mapE dyadLongEntry1 rows with
    | error e1 => rfl
    | ok long1 => rw [hm]
  · intro rows row p hr hok hnone
    simp only [load_dyad_mapping]
    cases h1 : mapE dyadLongEntry1 rows with
    | error e1 => rfl
    | ok long1 =>
      have hpmem : p ∈ long1 := mapE_ok_of_mem h1 row hr p hok
      cases h2 : mapE dyadLongEntry2 rows with
      | error e2 => rfl
      | ok long2 =>
        have hbad : dyadNormalizeEntry p = .error .valueError := by
          simp only [dyadNormalizeEntry, parseNatE, hnone]
        obtain ⟨e3, h3⟩ :=
          mapE_error_of_mem (List.mem_append_left long2 hpmem) hbad
        simp only []
        rw [h3]
  · intro rows row p hr hok hnone
    simp only [load_dyad_mapping]
    cases h1 : mapE dyadLongEntry1 rows with
    | error e1 => rfl
    | ok long1 =>
      cases h2 : mapE dyadLongEntry2 rows with
      | error e2 => rfl
      | ok long2 =>
        have hpmem : p ∈ long2 := mapE_ok_of_mem h2 row hr p hok
        have hbad : dyadNormalizeEntry p = .error .valueError := by
          simp only [dyadNormalizeEntry, parseNatE, hnone]
        obtain ⟨e3, h3⟩ :=
          mapE_error_of_mem (List.mem_append_right long1 hpmem) hbad
        simp only []
        rw [h3]

theorem c8_loaders_degrade_to_empty_witness :
    load_demographics
      (some [[("p_id", "x"), ("visit", "1"), ("gender", "F"), ("age", "34")]])
      = [] ∧
    load_dyad_mapping (some [[("dyadID", "1001"), ("pID2", "02")]]) = [] ∧
    load_dyad_mapping
      (some [[("dyadID", "1001"), ("pID1", "ab"), ("pID2", "02")]]) = [] := by
  refine ⟨?_, ?_, ?_⟩
  · exact c8_loaders_degrade_to_empty.2.2.1 _
      [("p_id", "x"), ("visit", "1"), ("gender", "F"), ("age", "34")]
      .valueError (by decide) (by decide)
  · exact c8_loaders_degrade_to_empty.2.2.2.1 _
      [("dyadID", "1001"), ("pID2", "02")] (.keyError "pID1") (by decide) (by decide)
  · exact c8_loaders_degrade_to_empty.2.2.2.2.2.1 _
      [("dyadID", "1001"), ("pID1", "ab"), ("pID2", "02")] ("ab", "1001")
      (by decide) (by decide) (by decide)

/-- C9: for a coordinates folder whose name parses and validates, the folder
outcome is a success exactly when at least one of the three known source
files exists and its copy succeeds; with no matching file the folder is a
failure with nothing copied; with only the first file present and copied the
folder is a partial success with exactly that one destination written. -/
theorem c9_coordinates_partial_success
    (dyadMap : List (String × String)) (existsF copyOk : String → Bool)
    (folderName : String) (info : CoordInfo)
    (hp : parse_coordinates_folder dyadMap folderName = some info)
    (hv : coordValidateMissing info = []) :
    ((coordinatesProcessSingleFile dyadMap existsF copyOk folderName).1 =
      (existsF (folderName ++ ".csv") && copyOk (folderName ++ ".csv") ||
       existsF (folderName ++ "_distances.csv") &&
         copyOk (folderName ++ "_distances.csv") ||
       existsF (folderName ++ "_optode_dist.csv") &&
         copyOk (folderName ++ "_optode_dist.csv"))) ∧
    ((existsF (folderName ++ ".csv") = false ∧
      existsF (folderName ++ "_distances.csv") = false ∧
      existsF (folderName ++ "_optode_dist.csv") = false) →
      coordinatesProcessSingleFile dyadMap existsF copyOk folderName
        = (false, [])) ∧
    ((existsF (folderName ++ ".csv") = true ∧
      copyOk (folderName ++ ".csv") = true ∧
      existsF (folderName ++ "_distances.csv") = false ∧
      existsF (folderName ++ "_optode_dist.csv") = false) →
      coordinatesProcessSingleFile dyadMap existsF copyOk folderName
        = (true, ["sub-" ++ info.sub ++ "_ses-" ++ info.ses ++ "_acq-dyad" ++
                  pyStrOpt info.dyad ++ "_" ++ "optodeCoordinates.csv"])) := by
  have hv2 : (coordValidateMissing info).isEmpty = true := by rw [hv]; rfl
  unfold coordinatesProcessSingleFile
  rw [hp]
  simp only [hv2, if_true, coordFilesMap, List.foldl]
  cases he1 : existsF (folderName ++ ".csv") <;>
  cases he2 : existsF (folderName ++ "_distances.csv") <;>
  cases he3 : existsF (folderName ++ "_optode_dist.csv") <;>
  cases hc1 : copyOk (folderName ++ ".csv") <;>
  cases hc2 : copyOk (folderName ++ "_distances.csv") <;>
  cases hc3 : copyOk (folderName ++ "_optode_dist.csv") <;>
  simp_all

theorem c9_coordinates_partial_success_witness :
    coordinatesProcessSingleFile [("101", "1001")]
      (fun s => s == "sub-101_session-1.csv") (fun _ => true) "sub-101_session-1"
      = (true, ["sub-101_ses-01_acq-dyad1001_optodeCoordinates.csv"]) := by
  have h := c9_coordinates_partial_success [("101", "1001")]
    (fun s => s == "sub-101_session-1.csv") (fun _ => true) "sub-101_session-1"
    { sub := "101", ses := "01", dyad := some "1001" } (by decide) (by decide)
  have h3 := h.2.2 ⟨by decide, by decide, by decide, by decide⟩
  exact h3.trans (by decide)

/-- C10: the motion-capture task table is exactly the four-entry mapping of
the source, a parsed file whose task number is 9 is a per-file failure with
no destination produced regardless of its other fields and of the copy
outcome, and the run counters treat files independently, so the failing file
adds one failure and leaves the success count of the other files
unchanged. -/
theorem c10_mocap_unknown_task_number :
    dictGet task_map "1" = some "drawingalone" ∧
    dictGet task_map "2" = some "codrawing1" ∧
    dictGet task_map "3" = some "codrawing2" ∧
    dictGet task_map "4" = some "collaborativetask" ∧
    dictGet task_map "9" = none ∧
    (∀ info c, info.task_num = some "9" →
      mocapProcessSingleFile (some info) c = (false, none)) ∧
    (∀ pre post : List Bool,
      runCounts (pre ++ false :: post) =
        ((runCounts (pre ++ post)).1, (runCounts (pre ++ post)).2 + 1)) := by
  refine ⟨by decide, by decide, by decide, by decide, by decide, ?_, ?_⟩
  · intro info c h
    unfold mocapProcessSingleFile
    by_cases hv : (mocapValidateMissing info).isEmpty
    · have hl : dictGet task_map (pyStrOpt info.task_num) = none := by
        rw [h]; decide
      simp only [hv, if_true, hl]
    · simp [hv]
  · intro pre post
    rw [runCounts_eq, runCounts_eq]
    simp [List.count_append, List.count_cons]
    omega

theorem c10_mocap_unknown_task_number_witness :
    mocapProcessSingleFile
      (some { dyad := some "1001", ses := some "01", task_num := some "9" })
      true = (false, none) := by
  exact c10_mocap_unknown_task_number.2.2.2.2.2.1
    { dyad := some "1001", ses := some "01", task_num := some "9" } true rfl
